import Mathlib

/-
Verification development for the authentication/authorization core of the
repository: the inbound bearer-token verifier and scope gate of
ansible_auth_mcp.py, and the OAuth2 client-credentials token cache of
redhat_insights_mcp.py.

Times are modelled as integers (seconds).  The JWT signature check and the
compact-serialization parse performed by the pyjwt library are abstracted as
two boolean fields of the token; the claim set of a token is modelled as a
record of optional claims.  The behaviour of jwt.decode with
algorithms=["HS256"], verify_aud disabled and a leeway, as called by the
source, is embedded in jwt_decode below: parse and signature failures raise
the generic InvalidTokenError, and an exp claim at or before now - leeway
raises ExpiredSignatureError (pyjwt validates exp with
"exp <= now - leeway" after the signature check).
-/

/-- Claim set of a decoded token payload: the claims the source reads
(payload.get of aud, iss, exp, scope, email).  A claim absent from the
token is None. -/
structure Payload where
  aud : Option String
  iss : Option String
  exp : Option Int
  scope : Option String
  email : Option String
  deriving DecidableEq

/-- An inbound bearer token: whether it parses as a JWT compact
serialization, whether its HMAC-SHA256 signature verifies against the
configured secret, and its claim set. -/
structure Token where
  wellFormed : Bool
  sigValid : Bool
  payload : Payload
  deriving DecidableEq

/-- SERVER_URI of ansible_auth_mcp.py, the f-string of scheme http, host
SERVER_HOST = localhost and port SERVER_PORT = 8001. -/
def SERVER_URI : String := "http://localhost:8001"

/-- AUTH_SERVER_URI of ansible_auth_mcp.py (the agentic-auth server). -/
def AUTH_SERVER_URI : String := "http://localhost:8002"

/-- Clock-skew leeway passed to jwt.decode in verify_token_from_context
(6 hours, in seconds). -/
def LEEWAY : Int := 21600

/-- Outcome of the jwt.decode call: the two exception classes the source
distinguishes, or the decoded payload. -/
inductive DecodeResult where
  | expiredSignature
  | invalidToken
  | ok (p : Payload)
  deriving DecidableEq

/-- Embedding of jwt.decode(token, JWT_SECRET, algorithms=["HS256"],
options={verify_aud: False}, leeway=leeway): parse and signature failures
give InvalidTokenError; with the audience check disabled, claim validation
only checks exp (when present) against now - leeway; otherwise the payload
is returned. -/
def jwt_decode (t : Token) (now : Int) (leeway : Int) : DecodeResult :=
  if t.wellFormed = false then .invalidToken
  else if t.sigValid = false then .invalidToken
  else
    match t.payload.exp with
    | some e => if e ≤ now - leeway then .expiredSignature else .ok t.payload
    | none => .ok t.payload

/-- The Authorization header of the inbound request: absent, present but
not of the bearer scheme, or a bearer header carrying a token. -/
inductive AuthHeader where
  | missing
  | notBearer
  | bearer (t : Token)
  deriving DecidableEq

/-- Failure modes of verify_token_from_context, one per raise site:
missing/invalid header, the two decode failures, and the explicit
post-decode audience and issuer checks (each recording the expected value
and the value found, as the raised message does). -/
inductive VerifyError where
  | missingCredential
  | malformedCredential
  | expiredCredential
  | audienceMismatch (expected : String) (got : Option String)
  | issuerMismatch (expected : String) (got : Option String)
  deriving DecidableEq

/-- Embedding of verify_token_from_context: reject a missing or non-bearer
Authorization header; decode the token with the secret, HS256, leeway and
the audience check disabled; map ExpiredSignatureError to "Token expired"
and other InvalidTokenError to "Invalid token"; then explicitly compare the
aud claim with SERVER_URI and the iss claim with AUTH_SERVER_URI; on
success return the payload. -/
def verify_token_from_context (h : AuthHeader) (now : Int) :
    Except VerifyError Payload :=
  match h with
  | .missing => .error .missingCredential
  | .notBearer => .error .missingCredential
  | .bearer t =>
    match jwt_decode t now LEEWAY with
    | .expiredSignature => .error .expiredCredential
    | .invalidToken => .error .malformedCredential
    | .ok payload =>
      if payload.aud ≠ some SERVER_URI then
        .error (.audienceMismatch SERVER_URI payload.aud)
      else if payload.iss ≠ some AUTH_SERVER_URI then
        .error (.issuerMismatch AUTH_SERVER_URI payload.iss)
      else .ok payload

/-- Whitespace test of Python str.split() with no separator, restricted to
the ASCII whitespace characters. -/
def is_py_space (c : Char) : Bool :=
  c = ' ' || c = '\t' || c = '\n' || c = '\x0b' || c = '\x0c' || c = '\r'

/-- Helper for py_split: walk the characters, accumulating the current
word (reversed) and emitting it at each whitespace run or at the end. -/
def py_split_aux : List Char → List Char → List String
  | [], acc => if acc.isEmpty then [] else [String.mk acc.reverse]
  | c :: cs, acc =>
    if is_py_space c then
      if acc.isEmpty then py_split_aux cs []
      else String.mk acc.reverse :: py_split_aux cs []
    else py_split_aux cs (c :: acc)

/-- Embedding of Python str.split() with no separator: split on runs of
whitespace, discarding empty strings, so the empty string splits to []. -/
def py_split (s : String) : List String :=
  py_split_aux s.data []

/-- Embedding of get_scope_description: a static two-entry description
table with a generic fallback for unknown scopes. -/
def get_scope_description (scope : String) : String :=
  if scope = "read:files" then
    "Read access to Ansible resources (inventories, job templates, jobs)"
  else if scope = "execute:commands" then
    "Execute and manage Ansible operations (run jobs, create projects)"
  else "Access to " ++ scope

/-- The error_info dictionary built by check_scope when the required scope
is not granted, field for field in source order. -/
structure ScopeErrorInfo where
  error_type : String
  error : String
  required_scope : String
  user_scopes : List String
  scope_upgrade_endpoint : String
  scope_description : String
  upgrade_instructions : String
  deriving DecidableEq

/-- The error_info value check_scope serializes into the raised exception
when required_scope is not among user_scopes. -/
def scope_denial (required_scope : String) (user_scopes : List String) :
    ScopeErrorInfo :=
  { error_type := "insufficient_scope"
    error := "Insufficient scope. Required: " ++ required_scope
    required_scope := required_scope
    user_scopes := user_scopes
    scope_upgrade_endpoint := AUTH_SERVER_URI ++ "/api/upgrade-scope"
    scope_description := get_scope_description required_scope
    upgrade_instructions :=
      "Use the scope_upgrade_endpoint to request additional permissions" }

/-- The part of check_scope after verification succeeded: split the scope
claim (empty string when absent) on whitespace, and either raise the
insufficient-scope error or return the verified payload unchanged. -/
def scope_gate (user : Payload) (required_scope : String) :
    Except ScopeErrorInfo Payload :=
  let user_scopes := py_split (user.scope.getD "")
  if required_scope ∉ user_scopes then
    .error (scope_denial required_scope user_scopes)
  else .ok user

/-- Failure modes of check_scope: a verification failure propagated from
verify_token_from_context, or the insufficient-scope error it raises
itself. -/
inductive AuthError where
  | verifyFailed (e : VerifyError)
  | insufficientScope (info : ScopeErrorInfo)
  deriving DecidableEq

/-- Embedding of check_scope: verify the token from the context, then gate
on the required scope. -/
def check_scope (h : AuthHeader) (now : Int) (required_scope : String) :
    Except AuthError Payload :=
  match verify_token_from_context h now with
  | .error e => .error (.verifyFailed e)
  | .ok user =>
    match scope_gate user required_scope with
    | .error info => .error (.insufficientScope info)
    | .ok u => .ok u

/-- Rendering of an optional claim inside a Python f-string: None prints
as the four characters None, a string prints as itself. -/
def py_str_of_opt : Option String → String
  | none => "None"
  | some s => s

/-- The message str(e) of the exception each verification failure raises,
one per raise site of verify_token_from_context. -/
def verify_error_message : VerifyError → String
  | .missingCredential => "Missing or invalid Authorization header"
  | .malformedCredential => "Invalid token"
  | .expiredCredential => "Token expired"
  | .audienceMismatch expected got =>
    "Invalid audience: expected " ++ expected ++ ", got " ++ py_str_of_opt got
  | .issuerMismatch expected got =>
    "Invalid issuer: expected " ++ expected ++ ", got " ++ py_str_of_opt got

/-- A JSON string literal as json.dumps renders it.  The strings the
source feeds in hold no character needing an escape, so quoting is
wrapping in double quotes. -/
def json_quote (s : String) : String := "\"" ++ s ++ "\""

/-- A JSON array of strings as json.dumps renders it, with the default
", " item separator. -/
def json_dumps_string_list (xs : List String) : String :=
  "[" ++ String.intercalate ", " (xs.map json_quote) ++ "]"

/-- The serialization json.dumps(error_info) of the insufficient-scope
error dictionary, keys in insertion order, with the default ", " and
": " separators. -/
def json_dumps_scope_error (info : ScopeErrorInfo) : String :=
  "\x7b" ++
  json_quote "error_type" ++ ": " ++ json_quote info.error_type ++ ", " ++
  json_quote "error" ++ ": " ++ json_quote info.error ++ ", " ++
  json_quote "required_scope" ++ ": " ++ json_quote info.required_scope ++ ", " ++
  json_quote "user_scopes" ++ ": " ++ json_dumps_string_list info.user_scopes ++ ", " ++
  json_quote "scope_upgrade_endpoint" ++ ": " ++ json_quote info.scope_upgrade_endpoint ++ ", " ++
  json_quote "scope_description" ++ ": " ++ json_quote info.scope_description ++ ", " ++
  json_quote "upgrade_instructions" ++ ": " ++ json_quote info.upgrade_instructions ++
  "\x7d"

/-- The message str(e) of an exception escaping check_scope, as
handle_scope_error receives it.  The insufficient-scope case is kept in
structured form: json.loads inverts the json.dumps performed at the raise
site, so parsing the serialized dictionary back is the identity on these
payloads; any other message is an uninterpreted string that fails JSON parsing
or lacks the insufficient_scope error_type. -/
inductive ErrMsg where
  | scopeJson (info : ScopeErrorInfo)
  | plain (s : String)
  deriving DecidableEq

/-- The str(e) of the exception carried by each check_scope failure. -/
def auth_error_message : AuthError → ErrMsg
  | .verifyFailed e => .plain (verify_error_message e)
  | .insufficientScope info => .scopeJson info

/-- The upgrade_example mapping embedded in the rich scope-denial
response of handle_scope_error: method, url, the Content-Type header, and
the scopes list of the body. -/
structure UpgradeExample where
  method : String
  url : String
  content_type_header : String
  body_scopes : List String
  deriving DecidableEq

/-- The rich insufficient-scope response mapping handle_scope_error
returns, field for field in source order. -/
structure ScopeErrorEnvelope where
  success : Bool
  error_type : String
  error : String
  required_scope : String
  user_scopes : List String
  scope_upgrade_endpoint : String
  scope_description : String
  upgrade_instructions : String
  upgrade_example : UpgradeExample
  deriving DecidableEq

/-- Result of handle_scope_error: the rich scope envelope, or the fallback
mapping with success False and the raw error string. -/
inductive HandlerResult where
  | scopeEnvelope (env : ScopeErrorEnvelope)
  | fallback (error : String)
  deriving DecidableEq

/-- The success field of the mapping a handler result denotes: False in
the envelope (by construction) and False in the fallback. -/
def handler_success : HandlerResult → Bool
  | .scopeEnvelope env => env.success
  | .fallback _ => false

/-- Embedding of handle_scope_error: parse the message as JSON; when it is
an insufficient_scope dictionary, build the rich envelope with success
False and the upgrade_example; otherwise fall back to the mapping with
success False and the raw message. -/
def handle_scope_error (msg : ErrMsg) : HandlerResult :=
  match msg with
  | .scopeJson info =>
    if info.error_type = "insufficient_scope" then
      .scopeEnvelope
        { success := false
          error_type := "insufficient_scope"
          error := info.error
          required_scope := info.required_scope
          user_scopes := info.user_scopes
          scope_upgrade_endpoint := info.scope_upgrade_endpoint
          scope_description := info.scope_description
          upgrade_instructions := info.upgrade_instructions
          upgrade_example :=
            { method := "POST"
              url := info.scope_upgrade_endpoint
              content_type_header := "application/json"
              body_scopes := [info.required_scope] } }
    else .fallback (json_dumps_scope_error info)
  | .plain s => .fallback s

/-- Observable outcome of one authenticated tool invocation: a successful
result annotated with the email of the authenticated user, a returned error
mapping from handle_scope_error, or a fault raised out of the tool to the
caller. -/
inductive ToolResult (α : Type) where
  | result (data : α) (authenticated_user : Option String)
  | envelope (r : HandlerResult)
  | raisedFault (msg : String)
  deriving DecidableEq

/-- Embedding of the list_inventories tool: check the read:ansible scope;
on success forward the upstream result tagged with the email of the user; on
any authentication or authorization failure return
handle_scope_error(ctx, str(e)). -/
def list_inventories {α : Type} (h : AuthHeader) (now : Int) (upstream : α) :
    ToolResult α :=
  match check_scope h now "read:ansible" with
  | .ok user => .result upstream user.email
  | .error e => .envelope (handle_scope_error (auth_error_message e))

/-- Embedding of the list_recent_jobs tool.  Its except clause reads
"return await handle_scope_error": the coroutine function itself, never
called.  Awaiting a plain function object raises TypeError at runtime, so
the original failure is replaced by a TypeError fault that propagates out
of the tool instead of a returned mapping. -/
def list_recent_jobs {α : Type} (h : AuthHeader) (now : Int) (upstream : α) :
    ToolResult α :=
  match check_scope h now "read:ansible" with
  | .ok user => .result upstream user.email
  | .error _ =>
    .raisedFault "TypeError: object function cannot be awaited"

/-- The module-level token cache of redhat_insights_mcp.py: the global
variables _access_token and _token_expires_at, both initially None. -/
structure TokenCache where
  access_token : Option String
  expires_at : Option Int
  deriving DecidableEq

/-- The reply of the authority to one client-credentials exchange: HTTP status,
the access_token and expires_in fields of the JSON body when present, and
the raw body text. -/
structure TokenResponse where
  status_code : Int
  access_token : Option String
  expires_in : Option Int
  text : String
  deriving DecidableEq

/-- Observable outcome of one get_access_token call: a token served from
the cache with no network exchange, a token acquired by a fresh exchange,
the raised failure for a non-200 exchange, or the KeyError raised when a
200 body lacks access_token. -/
inductive AcquireOutcome where
  | cached (token : String)
  | fetched (token : String)
  | acquisitionFailed (status : Int) (body : String)
  | keyError
  deriving DecidableEq

/-- The cache-validity test of get_access_token, with Python truthiness:
"_access_token and _token_expires_at and utcnow() < _token_expires_at".
An empty token string is falsy, so it never hits. -/
def cache_hit (st : TokenCache) (now : Int) : Bool :=
  match st.access_token, st.expires_at with
  | some tok, some expiry => tok ≠ "" && now < expiry
  | _, _ => false

/-- The fresh-exchange path of get_access_token: a non-200 status raises
before any assignment; a 200 body without access_token raises KeyError
before any assignment; otherwise the token is stored and the cached
expiry set to now plus expires_in (default 300) minus the 60-second
buffer. -/
def request_new_token (st : TokenCache) (now : Int) (resp : TokenResponse) :
    TokenCache × AcquireOutcome :=
  if resp.status_code ≠ 200 then
    (st, .acquisitionFailed resp.status_code resp.text)
  else
    match resp.access_token with
    | none => (st, .keyError)
    | some tok =>
      let expires_in := resp.expires_in.getD 300
      ({ access_token := some tok, expires_at := some (now + (expires_in - 60)) },
        .fetched tok)

/-- Embedding of get_access_token: return the cached token when the cache
is valid at the current time, with no network exchange; otherwise perform
one client-credentials exchange.  The single now parameter stands for the
two utcnow() reads of one call, which the source treats as the same
instant. -/
def get_access_token (st : TokenCache) (now : Int) (resp : TokenResponse) :
    TokenCache × AcquireOutcome :=
  if cache_hit st now then (st, .cached (st.access_token.getD ""))
  else request_new_token st now resp

/-- Number of network exchanges one get_access_token call performs: none
when served from cache, one otherwise. -/
def network_exchanges : AcquireOutcome → Nat
  | .cached _ => 0
  | .fetched _ => 1
  | .acquisitionFailed _ _ => 1
  | .keyError => 1

/-- Real expiry instant of a token acquired at a given time from a given
response: the acquisition time plus the authority-reported ttl (300 when
the response omits expires_in), without the 60-second cache buffer. -/
def real_expiry (acquired_at : Int) (resp : TokenResponse) : Int :=
  acquired_at + resp.expires_in.getD 300

/-- Cache-validity test on a populated cache, as a proposition. -/
lemma cache_hit_iff (tok : String) (expiry now : Int) :
    cache_hit ⟨some tok, some expiry⟩ now = true ↔ (tok ≠ "" ∧ now < expiry) := by
  unfold cache_hit
  simp

/-- A successful cache hit exposes a stored token, a stored expiry, and
the strict bound now < expiry. -/
lemma cache_hit_lt (st : TokenCache) (now : Int) (h : cache_hit st now = true) :
    ∃ tok expiry, st.access_token = some tok ∧ st.expires_at = some expiry ∧
      tok ≠ "" ∧ now < expiry := by
  unfold cache_hit at h
  rcases hat : st.access_token with _ | tok
  · rw [hat] at h
    simp at h
  · rcases hae : st.expires_at with _ | expiry
    · rw [hat, hae] at h
      simp at h
    · rw [hat, hae] at h
      simp at h
      exact ⟨tok, expiry, rfl, rfl, h.1, h.2⟩

/-- The fresh-exchange path never reports a cache hit. -/
lemma request_new_token_not_cached (st : TokenCache) (now : Int)
    (resp : TokenResponse) (tok : String) :
    (request_new_token st now resp).2 ≠ .cached tok := by
  unfold request_new_token
  split
  · simp
  · split <;> simp

/-- A fetched outcome of the fresh-exchange path pins down the response
status, the response token, and the stored cache state. -/
lemma request_new_token_fetched (st : TokenCache) (now : Int)
    (resp : TokenResponse) (tok : String)
    (h : (request_new_token st now resp).2 = .fetched tok) :
    resp.status_code = 200 ∧ resp.access_token = some tok ∧
    (request_new_token st now resp).1
      = ⟨some tok, some (now + (resp.expires_in.getD 300 - 60))⟩ := by
  unfold request_new_token at *
  split at h
  · simp at h
  · rename_i hstat
    split at h
    · simp at h
    · rename_i tok' htok'
      simp at h
      subst h
      refine ⟨by omega, htok', ?_⟩
      rw [if_neg hstat]

/-- Claim C1, counterexample: a token whose aud claim differs from the
configured server URI but whose signature is invalid makes
verify_token_from_context fail with the generic decode failure (Invalid
token), not with the audience-mismatch error, so the claimed behaviour
"regardless of signature validity" does not hold. -/
theorem C1_counterexample :
    (Token.mk true false
        ⟨some "http://evil", some AUTH_SERVER_URI, none, none, none⟩).payload.aud
      ≠ some SERVER_URI ∧
    verify_token_from_context
        (.bearer (Token.mk true false
          ⟨some "http://evil", some AUTH_SERVER_URI, none, none, none⟩)) 0
      = .error .malformedCredential :=
  ⟨by decide, rfl⟩

/-- Claim C1, amended: for every token that decodes successfully (well
formed, valid signature, not expired beyond the leeway) whose aud claim
differs from the configured server URI, verify_token_from_context fails
with the distinguishable audience-mismatch error, checked explicitly
after decoding rather than folded into the decode step. -/
theorem C1_audience_checked_after_decode (t : Token) (now : Int)
    (hw : t.wellFormed = true) (hs : t.sigValid = true)
    (hexp : ∀ e, t.payload.exp = some e → now - LEEWAY < e)
    (haud : t.payload.aud ≠ some SERVER_URI) :
    verify_token_from_context (.bearer t) now
      = .error (.audienceMismatch SERVER_URI t.payload.aud) := by
  cases hexpv : t.payload.exp with
  | none =>
    simp only [verify_token_from_context, jwt_decode, hw, hs, hexpv]
    simp [haud]
  | some e =>
    have he := hexp e hexpv
    simp only [verify_token_from_context, jwt_decode, hw, hs, hexpv]
    rw [if_neg (show ¬ e ≤ now - LEEWAY by omega)]
    simp [haud]

/-- Claim C1, witness: a concrete well-signed, unexpired token with a
wrong audience yields exactly the audience-mismatch error. -/
theorem C1_audience_checked_after_decode_witness :
    verify_token_from_context
        (.bearer (Token.mk true true
          ⟨some "http://wrong", some AUTH_SERVER_URI, some 999999,
           some "read:files", some "user@example.com"⟩)) 0
      = .error (.audienceMismatch SERVER_URI (some "http://wrong")) :=
  C1_audience_checked_after_decode _ 0 rfl rfl
    (by intro e he; simp at he; have hl : LEEWAY = 21600 := rfl; omega) (by decide)

/-- Claim C2: a token whose exp claim lies more than the leeway (21600
seconds) in the past fails with the expired-credential error, and a token
whose exp lies within the leeway in the past or in the future succeeds
and returns the decoded payload, given a valid signature, audience and
issuer. -/
theorem C2_expiry_leeway (t : Token) (now e : Int)
    (hw : t.wellFormed = true) (hs : t.sigValid = true)
    (hexp : t.payload.exp = some e) :
    (now - e > LEEWAY →
      verify_token_from_context (.bearer t) now = .error .expiredCredential) ∧
    (now - e < LEEWAY →
      t.payload.aud = some SERVER_URI →
      t.payload.iss = some AUTH_SERVER_URI →
      verify_token_from_context (.bearer t) now = .ok t.payload) := by
  constructor
  · intro hpast
    simp only [verify_token_from_context, jwt_decode, hw, hs, hexp]
    rw [if_pos (show e ≤ now - LEEWAY by omega)]
    simp
  · intro hfresh haud hiss
    simp only [verify_token_from_context, jwt_decode, hw, hs, hexp]
    rw [if_neg (show ¬ e ≤ now - LEEWAY by omega)]
    simp [haud, hiss]

/-- Claim C2, witness: at time 0, a valid token with exp 30000 seconds in
the past is rejected as expired, and one with exp 21599 seconds in the
past (within the leeway) is accepted. -/
theorem C2_expiry_leeway_witness :
    verify_token_from_context
        (.bearer (Token.mk true true
          ⟨some SERVER_URI, some AUTH_SERVER_URI, some (-30000), none, none⟩)) 0
      = .error .expiredCredential ∧
    verify_token_from_context
        (.bearer (Token.mk true true
          ⟨some SERVER_URI, some AUTH_SERVER_URI, some (-21599), none, none⟩)) 0
      = .ok ⟨some SERVER_URI, some AUTH_SERVER_URI, some (-21599), none, none⟩ :=
  ⟨(C2_expiry_leeway _ 0 (-30000) rfl rfl rfl).1 (by decide),
   (C2_expiry_leeway _ 0 (-21599) rfl rfl rfl).2 (by decide) rfl rfl⟩

/-- Claim C3: when the required scope is a member of the whitespace split
of the scope claim of the credential, the scope gate returns the credential
unchanged; otherwise it produces the denial whose required_scope equals
the input and whose user_scopes equals the order-preserving whitespace
split, exactly. -/
theorem C3_scope_gate_exact (user : Payload) (required_scope : String) :
    (required_scope ∈ py_split (user.scope.getD "") →
      scope_gate user required_scope = .ok user) ∧
    (required_scope ∉ py_split (user.scope.getD "") →
      scope_gate user required_scope
        = .error (scope_denial required_scope (py_split (user.scope.getD ""))) ∧
      (scope_denial required_scope (py_split (user.scope.getD ""))).required_scope
        = required_scope ∧
      (scope_denial required_scope (py_split (user.scope.getD ""))).user_scopes
        = py_split (user.scope.getD "")) := by
  constructor
  · intro hmem
    simp [scope_gate, hmem]
  · intro hmem
    exact ⟨by simp [scope_gate, hmem], rfl, rfl⟩

/-- Claim C3, witness: a credential granting read:files and
execute:commands passes the gate for read:files unchanged, and a
credential granting only read:files is denied execute:commands with the
exact split of its scopes. -/
theorem C3_scope_gate_exact_witness :
    scope_gate
        ⟨some SERVER_URI, some AUTH_SERVER_URI, some 99,
         some "read:files execute:commands", some "u"⟩ "read:files"
      = .ok ⟨some SERVER_URI, some AUTH_SERVER_URI, some 99,
             some "read:files execute:commands", some "u"⟩ ∧
    scope_gate
        ⟨some SERVER_URI, some AUTH_SERVER_URI, some 99,
         some "read:files", some "u"⟩ "execute:commands"
      = .error (scope_denial "execute:commands" ["read:files"]) :=
  ⟨(C3_scope_gate_exact _ "read:files").1 (by decide),
   ((C3_scope_gate_exact
      ⟨some SERVER_URI, some AUTH_SERVER_URI, some 99, some "read:files", some "u"⟩
      "execute:commands").2 (by decide)).1⟩

/-- Claim C4: every scope denial carries the description from the static
table (which maps only read:files and execute:commands, with the generic
fallback Access to the scope otherwise) and the upgrade endpoint at the
authority, and the envelope handle_scope_error builds from it carries the
upgrade_example with method POST, the endpoint url, and a body whose
scopes list is exactly the required scope. -/
theorem C4_denial_payload (user : Payload) (required_scope : String)
    (hmem : required_scope ∉ py_split (user.scope.getD "")) :
    scope_gate user required_scope
      = .error (scope_denial required_scope (py_split (user.scope.getD ""))) ∧
    (scope_denial required_scope (py_split (user.scope.getD ""))).scope_description
      = get_scope_description required_scope ∧
    (scope_denial required_scope (py_split (user.scope.getD ""))).scope_upgrade_endpoint
      = AUTH_SERVER_URI ++ "/api/upgrade-scope" ∧
    get_scope_description "read:files"
      = "Read access to Ansible resources (inventories, job templates, jobs)" ∧
    get_scope_description "execute:commands"
      = "Execute and manage Ansible operations (run jobs, create projects)" ∧
    (required_scope ≠ "read:files" → required_scope ≠ "execute:commands" →
      get_scope_description required_scope = "Access to " ++ required_scope) ∧
    handle_scope_error
        (.scopeJson (scope_denial required_scope (py_split (user.scope.getD ""))))
      = .scopeEnvelope
          { success := false
            error_type := "insufficient_scope"
            error := "Insufficient scope. Required: " ++ required_scope
            required_scope := required_scope
            user_scopes := py_split (user.scope.getD "")
            scope_upgrade_endpoint := AUTH_SERVER_URI ++ "/api/upgrade-scope"
            scope_description := get_scope_description required_scope
            upgrade_instructions :=
              "Use the scope_upgrade_endpoint to request additional permissions"
            upgrade_example :=
              { method := "POST"
                url := AUTH_SERVER_URI ++ "/api/upgrade-scope"
                content_type_header := "application/json"
                body_scopes := [required_scope] } } := by
  refine ⟨by simp [scope_gate, hmem], rfl, rfl, rfl, rfl, ?_, rfl⟩
  intro h1 h2
  simp [get_scope_description, h1, h2]

/-- Claim C4, witness: a credential with no granted scopes denied the
unknown scope manage:ansible gets the generic description and the full
upgrade envelope. -/
theorem C4_denial_payload_witness :
    scope_gate ⟨none, none, none, some "read:files", none⟩ "manage:ansible"
      = .error (scope_denial "manage:ansible" ["read:files"]) ∧
    (scope_denial "manage:ansible" ["read:files"]).scope_description
      = "Access to manage:ansible" ∧
    handle_scope_error (.scopeJson (scope_denial "manage:ansible" ["read:files"]))
      = .scopeEnvelope
          { success := false
            error_type := "insufficient_scope"
            error := "Insufficient scope. Required: manage:ansible"
            required_scope := "manage:ansible"
            user_scopes := ["read:files"]
            scope_upgrade_endpoint := "http://localhost:8002/api/upgrade-scope"
            scope_description := "Access to manage:ansible"
            upgrade_instructions :=
              "Use the scope_upgrade_endpoint to request additional permissions"
            upgrade_example :=
              { method := "POST"
                url := "http://localhost:8002/api/upgrade-scope"
                content_type_header := "application/json"
                body_scopes := ["manage:ansible"] } } := by
  have h := C4_denial_payload
    ⟨none, none, none, some "read:files", none⟩ "manage:ansible" (by decide)
  exact ⟨h.1, h.2.1, h.2.2.2.2.2.2⟩

/-- Claim C5: the propagation policy fails for the list_recent_jobs tool.
Its except clause awaits the handle_scope_error function object without
calling it, which raises a TypeError, so an authentication failure
propagates out of the tool as a raised fault instead of being converted
into a returned mapping with success False, while list_inventories does
convert the same failure, and every mapping handle_scope_error builds
carries success False. -/
theorem C5_list_recent_jobs_uncaught :
    list_recent_jobs AuthHeader.missing 0 ()
      = .raisedFault "TypeError: object function cannot be awaited" ∧
    list_inventories AuthHeader.missing 0 ()
      = .envelope (.fallback "Missing or invalid Authorization header") ∧
    (∀ msg : ErrMsg, handler_success (handle_scope_error msg) = false) := by
  refine ⟨rfl, rfl, ?_⟩
  intro msg
  cases msg with
  | plain s => rfl
  | scopeJson info =>
    by_cases h : info.error_type = "insufficient_scope" <;>
      simp [handle_scope_error, handler_success, h]

/-- Claim C6, counterexample: when the authority reports a ttl below the
60-second buffer, the freshly acquired token is still returned, with a
real expiry (acquisition time plus ttl) less than 60 seconds after the
moment of return, so the claimed invariant fails on the fresh path. -/
theorem C6_counterexample :
    (get_access_token ⟨none, none⟩ 0 ⟨200, some "abc", some 30, ""⟩).2
      = .fetched "abc" ∧
    real_expiry 0 ⟨200, some "abc", some 30, ""⟩ < 0 + 60 :=
  ⟨rfl, by decide⟩

/-- Claim C6, amended: a token served from the cache whose stored expiry
was computed as acquisition time plus ttl minus 60 has a real expiry
strictly more than 60 seconds after the moment of return; a freshly
acquired token has a real expiry at least 60 seconds after the moment of
return provided the authority-reported ttl is at least 60 seconds, and
its stored expiry is the acquisition time plus ttl minus 60. -/
theorem C6_renewal_buffer (st : TokenCache) (now t0 ttl : Int)
    (resp : TokenResponse) (tok : String) :
    (st.expires_at = some (t0 + (ttl - 60)) →
      (get_access_token st now resp).2 = .cached tok →
      now + 60 < t0 + ttl) ∧
    (resp.expires_in.getD 300 = ttl → 60 ≤ ttl →
      (get_access_token st now resp).2 = .fetched tok →
      now + 60 ≤ real_expiry now resp ∧
      (get_access_token st now resp).1.expires_at = some (now + (ttl - 60))) := by
  constructor
  · intro hexp hcached
    unfold get_access_token at hcached
    by_cases hh : cache_hit st now = true
    · obtain ⟨tok', expiry, hat, hae, hne, hlt⟩ := cache_hit_lt st now hh
      rw [hexp] at hae
      injection hae with hae
      omega
    · rw [if_neg hh] at hcached
      exact absurd hcached (request_new_token_not_cached st now resp tok)
  · intro httl h60 hfetched
    unfold get_access_token at hfetched ⊢
    by_cases hh : cache_hit st now = true
    · rw [if_pos hh] at hfetched
      simp at hfetched
    · rw [if_neg hh] at hfetched ⊢
      obtain ⟨hstat, htokk, hstate⟩ := request_new_token_fetched st now resp tok hfetched
      constructor
      · unfold real_expiry
        omega
      · rw [hstate]
        simp only [Option.some.injEq]
        omega

/-- Claim C6, witness: a cached token stored with ttl 160 at time 0 and
returned at time 50 has over 60 seconds of real validity left, and a
fresh token with ttl 120 acquired at time 0 has at least 60 seconds. -/
theorem C6_renewal_buffer_witness :
    (50 : Int) + 60 < 0 + 160 ∧
    (0 : Int) + 60 ≤ real_expiry 0 ⟨200, some "abc", some 120, ""⟩ :=
  ⟨(C6_renewal_buffer ⟨some "t", some (0 + (160 - 60))⟩ 50 0 160
      ⟨404, none, none, ""⟩ "t").1 rfl (by decide),
   ((C6_renewal_buffer ⟨none, none⟩ 0 0 120
      ⟨200, some "abc", some 120, ""⟩ "abc").2 rfl (by decide) (by decide)).1⟩

/-- Claim C7: a valid cached token is returned immediately with no
network exchange, and two calls within the cached validity window opened
by one acquisition perform exactly one network exchange in total. -/
theorem C7_cached_window_single_exchange (st : TokenCache) (now t1 t2 : Int)
    (resp resp2 : TokenResponse) (tok : String) (expiry : Int) :
    (st.access_token = some tok → tok ≠ "" → st.expires_at = some expiry →
      now < expiry →
      get_access_token st now resp = (st, .cached tok) ∧
      network_exchanges (get_access_token st now resp).2 = 0) ∧
    (resp.status_code = 200 → resp.access_token = some tok → tok ≠ "" →
      t2 < t1 + (resp.expires_in.getD 300 - 60) →
      (get_access_token ⟨none, none⟩ t1 resp).2 = .fetched tok ∧
      get_access_token (get_access_token ⟨none, none⟩ t1 resp).1 t2 resp2
        = ((get_access_token ⟨none, none⟩ t1 resp).1, .cached tok) ∧
      network_exchanges (get_access_token ⟨none, none⟩ t1 resp).2
        + network_exchanges
            (get_access_token (get_access_token ⟨none, none⟩ t1 resp).1 t2 resp2).2
        = 1) := by
  constructor
  · intro hat hne hae hlt
    have hhit : cache_hit st now = true := by
      unfold cache_hit
      rw [hat, hae]
      simp [hne, hlt]
    unfold get_access_token
    rw [if_pos hhit, hat]
    exact ⟨rfl, rfl⟩
  · intro hstat htok hne hwin
    have h1 : get_access_token ⟨none, none⟩ t1 resp
        = (⟨some tok, some (t1 + (resp.expires_in.getD 300 - 60))⟩, .fetched tok) := by
      unfold get_access_token
      rw [if_neg (by simp [cache_hit])]
      unfold request_new_token
      rw [if_neg (show ¬ resp.status_code ≠ 200 by simp [hstat]), htok]
    have hhit2 : cache_hit ⟨some tok, some (t1 + (resp.expires_in.getD 300 - 60))⟩ t2
        = true := by
      rw [cache_hit_iff]
      exact ⟨hne, by omega⟩
    refine ⟨by rw [h1], ?_, ?_⟩
    · rw [h1]
      unfold get_access_token
      rw [if_pos hhit2]
      rfl
    · rw [h1]
      unfold get_access_token
      rw [if_pos hhit2]
      rfl

/-- Claim C7, witness: a cache holding token t until time 100 answers a
call at time 50 from the cache, and the pair of calls at times 0 and 30
after a 120-second acquisition performs exactly one exchange. -/
theorem C7_cached_window_single_exchange_witness :
    get_access_token ⟨some "t", some 100⟩ 50 ⟨404, none, none, "down"⟩
      = (⟨some "t", some 100⟩, .cached "t") ∧
    network_exchanges
        (get_access_token ⟨none, none⟩ 0 ⟨200, some "abc", some 120, ""⟩).2
      + network_exchanges
          (get_access_token
            (get_access_token ⟨none, none⟩ 0 ⟨200, some "abc", some 120, ""⟩).1
            30 ⟨404, none, none, "down"⟩).2
      = 1 :=
  ⟨((C7_cached_window_single_exchange ⟨some "t", some 100⟩ 50 0 0
      ⟨404, none, none, "down"⟩ ⟨404, none, none, "down"⟩ "t" 100).1
      rfl (by decide) rfl (by decide)).1,
   ((C7_cached_window_single_exchange ⟨none, none⟩ 0 0 30
      ⟨200, some "abc", some 120, ""⟩ ⟨404, none, none, "down"⟩ "abc" 0).2
      rfl rfl (by decide) (by decide)).2.2⟩

/-- Claim C8: a successful exchange stores the returned token and sets
the cached expiry to now plus expires_in minus 60, defaulting expires_in
to 300 when absent; with expires_in 120 the cached expiry is now plus 60,
a call 61 seconds later performs a new exchange, and a call 30 seconds
later is served from the cache. -/
theorem C8_token_store (st : TokenCache) (now n : Int) (resp : TokenResponse)
    (tok : String) (hmiss : cache_hit st now = false)
    (hstat : resp.status_code = 200) (htok : resp.access_token = some tok) :
    (get_access_token st now resp).1
      = ⟨some tok, some (now + (resp.expires_in.getD 300 - 60))⟩ ∧
    (get_access_token st now resp).2 = .fetched tok ∧
    (resp.expires_in = none →
      (get_access_token st now resp).1.expires_at = some (now + 240)) ∧
    (get_access_token ⟨none, none⟩ n ⟨200, some "abc", some 120, ""⟩).1
      = ⟨some "abc", some (n + 60)⟩ ∧
    (get_access_token (⟨some "abc", some (n + 60)⟩ : TokenCache) (n + 61)
        ⟨200, some "abc", some 120, ""⟩).2 = .fetched "abc" ∧
    network_exchanges
        (get_access_token (⟨some "abc", some (n + 60)⟩ : TokenCache) (n + 61)
          ⟨200, some "abc", some 120, ""⟩).2 = 1 ∧
    (get_access_token (⟨some "abc", some (n + 60)⟩ : TokenCache) (n + 30)
        ⟨200, some "abc", some 120, ""⟩).2 = .cached "abc" ∧
    network_exchanges
        (get_access_token (⟨some "abc", some (n + 60)⟩ : TokenCache) (n + 30)
          ⟨200, some "abc", some 120, ""⟩).2 = 0 := by
  have hmain : get_access_token st now resp
      = (⟨some tok, some (now + (resp.expires_in.getD 300 - 60))⟩, .fetched tok) := by
    unfold get_access_token
    rw [if_neg (by simp [hmiss])]
    unfold request_new_token
    rw [if_neg (show ¬ resp.status_code ≠ 200 by simp [hstat]), htok]
  have h1 : get_access_token ⟨none, none⟩ n ⟨200, some "abc", some 120, ""⟩
      = (⟨some "abc", some (n + 60)⟩, .fetched "abc") := by
    unfold get_access_token
    rw [if_neg (by simp [cache_hit])]
    unfold request_new_token
    norm_num
  have hmiss61 : cache_hit ⟨some "abc", some (n + 60)⟩ (n + 61) = false := by
    rw [Bool.eq_false_iff]
    intro hcontra
    rw [cache_hit_iff] at hcontra
    exact absurd hcontra.2 (by omega)
  have hhit30 : cache_hit ⟨some "abc", some (n + 60)⟩ (n + 30) = true :=
    (cache_hit_iff "abc" (n + 60) (n + 30)).mpr ⟨by decide, by omega⟩
  refine ⟨by rw [hmain], by rw [hmain], ?_, by rw [h1], ?_, ?_, ?_, ?_⟩
  · intro hnone
    rw [hmain]
    simp [hnone]
  · unfold get_access_token
    rw [if_neg (by simp [hmiss61])]
    unfold request_new_token
    rw [if_neg (show ¬ ((200 : Int) ≠ 200) by decide)]
  · unfold get_access_token
    rw [if_neg (by simp [hmiss61])]
    unfold request_new_token
    rw [if_neg (show ¬ ((200 : Int) ≠ 200) by decide)]
    rfl
  · unfold get_access_token
    rw [if_pos hhit30]
    rfl
  · unfold get_access_token
    rw [if_pos hhit30]
    rfl

/-- Claim C8, witness: at time 5 an empty cache filled from a response
with expires_in 120 stores expiry 65, and the scenario cache filled at
time 0 stores expiry 60. -/
theorem C8_token_store_witness :
    (get_access_token ⟨none, none⟩ 5 ⟨200, some "tkn", some 120, ""⟩).1
      = ⟨some "tkn", some 65⟩ ∧
    (get_access_token ⟨none, none⟩ 0 ⟨200, some "abc", some 120, ""⟩).1
      = ⟨some "abc", some 60⟩ := by
  have h := C8_token_store ⟨none, none⟩ 5 0 ⟨200, some "tkn", some 120, ""⟩ "tkn"
    (by decide) (by decide) rfl
  constructor
  · rw [h.1]
    decide
  · rw [h.2.2.2.1]
    decide

/-- Claim C9: a non-200 exchange raises the acquisition failure carrying
the status code and response body before any assignment, leaving the
cached token string and cached expiry exactly as they were. -/
theorem C9_failure_preserves_cache (st : TokenCache) (now : Int)
    (resp : TokenResponse) (hfail : resp.status_code ≠ 200) :
    (get_access_token st now resp).1 = st ∧
    (cache_hit st now = false →
      (get_access_token st now resp).2
        = .acquisitionFailed resp.status_code resp.text) := by
  unfold get_access_token
  by_cases hh : cache_hit st now = true
  · rw [if_pos hh]
    exact ⟨rfl, by intro h; rw [h] at hh; exact Bool.noConfusion hh⟩
  · rw [if_neg hh]
    unfold request_new_token
    rw [if_pos hfail]
    exact ⟨rfl, fun _ => rfl⟩

/-- Claim C9, witness: a 500 response leaves a stale cache untouched and
reports the failure with the status and body. -/
theorem C9_failure_preserves_cache_witness :
    (get_access_token ⟨some "x", some 10⟩ 50 ⟨500, none, none, "boom"⟩).1
      = ⟨some "x", some 10⟩ ∧
    (get_access_token ⟨some "x", some 10⟩ 50 ⟨500, none, none, "boom"⟩).2
      = .acquisitionFailed 500 "boom" := by
  have h := C9_failure_preserves_cache ⟨some "x", some 10⟩ 50
    ⟨500, none, none, "boom"⟩ (by decide)
  exact ⟨h.1, h.2 (by decide)⟩

/-- Claim C10: a credential whose scope claim is absent or empty is
treated as granting no scopes, so any required scope produces the denial
whose user_scopes is the empty list rather than a failure on the missing
claim. -/
theorem C10_absent_scope_empty (user : Payload) (required_scope : String)
    (hscope : user.scope = none ∨ user.scope = some "") :
    scope_gate user required_scope = .error (scope_denial required_scope []) ∧
    (scope_denial required_scope []).user_scopes = [] := by
  have hsplit : py_split (user.scope.getD "") = [] := by
    rcases hscope with h | h <;> rw [h] <;> rfl
  refine ⟨?_, rfl⟩
  simp [scope_gate, hsplit]

/-- Claim C10, witness: an otherwise valid credential with no scope claim
is denied read:ansible with an empty user_scopes list. -/
theorem C10_absent_scope_empty_witness :
    scope_gate ⟨some SERVER_URI, some AUTH_SERVER_URI, some 5, none, some "u"⟩
        "read:ansible"
      = .error (scope_denial "read:ansible" []) :=
  (C10_absent_scope_empty
    ⟨some SERVER_URI, some AUTH_SERVER_URI, some 5, none, some "u"⟩
    "read:ansible" (Or.inl rfl)).1
